import Mathlib

/-!
Shallow embedding of the BillUploader service (Python) for specification
checking.  The repository wires `src/main.py` to `src/services/Schedulers.py`,
which contains the active `upload_bills_job`, `send_weekly_report_job`,
`initialize_scheduler`, `schedule_jobs` and `shutdown_scheduler`;
`src/services/ReceiptService.py` holds a near-duplicate revision of the two
jobs whose weekly-report window additionally sets precise times of day, and
`src/services/ReceiptApiClient.py` holds the HTTP client wrapper.

Effects are made explicit: the directory listing, per-path `open`/`os.remove`
failures, and the remote upload outcome are inputs; file-handle bookkeeping,
log records and whether an exception escapes the Python function are outputs.
-/

namespace BillUploader

/-! ### Python `datetime` model

A `datetime.datetime` value is modelled by its proleptic-Gregorian ordinal
(`datetime.toordinal()`, day 1 = 0001-01-01, a Monday) together with the
microseconds elapsed since midnight (invariant: `usec < 86400000000`).
`datetime.weekday()` returns 0 for Monday through 6 for Sunday, hence
`(ordinal - 1) % 7`.  Subtracting `timedelta(days = k)` shifts the ordinal and
keeps the time of day; `replace(hour, minute, second, microsecond)` rebuilds
the time of day. -/

structure PyDateTime where
  ordinal : Int
  usec : Nat
deriving DecidableEq, Repr

def weekday (t : PyDateTime) : Int := (t.ordinal - 1) % 7

def subDays (t : PyDateTime) (k : Int) : PyDateTime := ⟨t.ordinal - k, t.usec⟩

def replaceTime (t : PyDateTime) (h m s us : Nat) : PyDateTime :=
  ⟨t.ordinal, ((h * 60 + m) * 60 + s) * 1000000 + us⟩

/-- Chronological order on model datetimes (ordinal-major). -/
def dtLE (a b : PyDateTime) : Prop :=
  a.ordinal < b.ordinal ∨ (a.ordinal = b.ordinal ∧ a.usec ≤ b.usec)

instance (a b : PyDateTime) : Decidable (dtLE a b) := by
  unfold dtLE; infer_instance

/-- Two datetimes fall within the same calendar second. -/
def sameSecond (a b : PyDateTime) : Prop :=
  a.ordinal = b.ordinal ∧ a.usec / 1000000 = b.usec / 1000000

instance (a b : PyDateTime) : Decidable (sameSecond a b) := by
  unfold sameSecond; infer_instance

/-! ### Weekly-report windows

`services/Schedulers.py`, `send_weekly_report_job` (lines 81-84):

    today = datetime.now()
    last_day = today - timedelta(days=today.weekday() + 1)  # Previous Sunday
    first_day = last_day - timedelta(days=6)                # Previous Monday

`services/ReceiptService.py` (lines 67-74) additionally runs

    first_day = first_day.replace(hour=0, minute=1, second=0, microsecond=0)
    last_day = last_day.replace(hour=23, minute=59, second=59, microsecond=0)
-/

def report_window_sched (today : PyDateTime) : PyDateTime × PyDateTime :=
  let last_day := subDays today (weekday today + 1)
  let first_day := subDays last_day 6
  (first_day, last_day)

def report_window_svc (today : PyDateTime) : PyDateTime × PyDateTime :=
  let w := report_window_sched today
  (replaceTime w.1 0 1 0 0, replaceTime w.2 23 59 59 0)

/-! ### The upload job

`services/Schedulers.py`, `upload_bills_job` (lines 32-75); the copy in
`services/ReceiptService.py` (lines 17-60) is textually identical here.  The
filesystem and the remote call are explicit inputs (`UploadEnv`); the job's
observable behaviour is collected in `UploadResult`. -/

/-- Python `str.lower()` on a string viewed as its code-point sequence. -/
def strLower (s : String) : String := ⟨s.data.map Char.toLower⟩

/-- Python `str.endswith(suffix)`: the code points of `suf` are a suffix of
those of `s`. -/
def strEndsWith (s suf : String) : Bool := List.isSuffixOf suf.data s.data

/-- The extension filter of the scan loop:
`filename.lower().endswith(('.jpg', '.jpeg', '.png'))`. -/
def matchesExt (filename : String) : Bool :=
  let lf := strLower filename
  strEndsWith lf ".jpg" || strEndsWith lf ".jpeg" || strEndsWith lf ".png"

/-- `os.path.join(BILLS_DIRECTORY, filename)`. -/
def joinPath (dir filename : String) : String := dir ++ "/" ++ filename

/-- The log records emitted by `upload_bills_job` via `logger`. -/
inductive LogEntry where
  | infoNoFiles
  | infoAttempt (n : Nat)
  | infoUploaded (n : Nat)
  | infoRemoved (path : String)
  | errorRemove (path : String)
  | errorUploadInner
  | errorUploadOuter
deriving DecidableEq, Repr

structure UploadEnv where
  /-- `BILLS_DIRECTORY` -/
  dir : String
  /-- `os.listdir(BILLS_DIRECTORY)` -/
  listing : List String
  /-- whether `open(file_path, 'rb')` raises for a given path -/
  openFails : String → Bool
  /-- whether `service.upload_receipts(bill_files)` succeeds -/
  uploadOk : Bool
  /-- whether `os.remove(file_path)` raises for a given path -/
  removeFails : String → Bool

structure UploadResult where
  /-- paths whose `open` handle was acquired -/
  opened : List String
  /-- paths whose handle was closed by the `finally` block -/
  closed : List String
  /-- paths for which `os.remove` was attempted -/
  removeAttempts : List String
  /-- paths actually removed from disk -/
  removed : List String
  /-- number of calls to `service.upload_receipts` -/
  remoteCalls : Nat
  /-- whether an exception escapes the Python function to its caller -/
  raised : Bool
  log : List LogEntry
deriving DecidableEq, Repr

/-- The scan loop (lines 41-45): for each listed filename matching the
extension filter, the path is appended to `file_paths` and then the file is
opened; an `open` failure raises out of the loop immediately (the appended
path and the previously opened handles stay behind).  Returns
`(file_paths, bill_files as their paths, aborted?)`. -/
def scanBills (dir : String) (openFails : String → Bool) :
    List String → List String × List String × Bool
  | [] => ([], [], false)
  | f :: rest =>
    if matchesExt f then
      let p := joinPath dir f
      if openFails p then ([p], [], true)
      else
        let r := scanBills dir openFails rest
        (p :: r.1, p :: r.2.1, r.2.2)
    else scanBills dir openFails rest

def upload_bills_job (env : UploadEnv) : UploadResult :=
  let scan := scanBills env.dir env.openFails env.listing
  let file_paths := scan.1
  let bill_files := scan.2.1
  if scan.2.2 then
    -- `open` raised during the scan, before the try/finally was entered:
    -- nothing is closed and the exception escapes the function.
    { opened := bill_files, closed := [], removeAttempts := [], removed := [],
      remoteCalls := 0, raised := true, log := [] }
  else if bill_files.isEmpty then
    { opened := [], closed := [], removeAttempts := [], removed := [],
      remoteCalls := 0, raised := false, log := [.infoNoFiles] }
  else if env.uploadOk then
    { opened := bill_files
      closed := bill_files
      removeAttempts := file_paths
      removed := file_paths.filter (fun p => !env.removeFails p)
      remoteCalls := 1
      raised := false
      log := [.infoAttempt bill_files.length, .infoUploaded bill_files.length] ++
        file_paths.map (fun p =>
          if env.removeFails p then LogEntry.errorRemove p else LogEntry.infoRemoved p) }
  else
    -- the inner handler logs and re-raises; the outer handler logs and
    -- swallows; the finally block closes every opened handle.
    { opened := bill_files, closed := bill_files, removeAttempts := [], removed := [],
      remoteCalls := 1, raised := false,
      log := [.infoAttempt bill_files.length, .errorUploadInner, .errorUploadOuter] }

/-- The paths of the files selected by the scan. -/
def matchedPaths (env : UploadEnv) : List String :=
  (env.listing.filter matchesExt).map (joinPath env.dir)

/-! ### The weekly-report job

`services/Schedulers.py`, `send_weekly_report_job` (lines 77-93): computes the
window, performs one `send_report_by_email` call, and catches every exception
around the client usage, logging it; nothing propagates. -/

structure ReportResult where
  window : PyDateTime × PyDateTime
  remoteCalls : Nat
  raised : Bool
  errorLogged : Bool
deriving DecidableEq, Repr

def send_weekly_report_job (today : PyDateTime) (sendOk : Bool) : ReportResult :=
  { window := report_window_sched today
    remoteCalls := 1
    raised := false
    errorLogged := !sendOk }

/-! ### Manual-trigger endpoints

`src/main.py`, `trigger_upload_bills` / `trigger_weekly_report` (lines
140-150): each logs, awaits the job, and returns a message dict.  Neither
wraps the job in try/except, so a job exception escapes the endpoint
function itself (any response the framework then fabricates is outside this
code). -/

inductive EndpointOutcome where
  | success (body : String)
  | serverError (status : Nat) (detail : String)
  | propagated
deriving DecidableEq, Repr

def isServerError : EndpointOutcome → Bool
  | .serverError s _ => 500 ≤ s && s < 600
  | _ => false

def trigger_upload_bills (env : UploadEnv) : EndpointOutcome :=
  if (upload_bills_job env).raised then .propagated
  else .success "Bill upload job completed"

def trigger_weekly_report (today : PyDateTime) (sendOk : Bool) : EndpointOutcome :=
  if (send_weekly_report_job today sendOk).raised then .propagated
  else .success "Weekly report job completed"

/-! ### Scheduler job registration

`services/Schedulers.py`, `schedule_jobs` (lines 123-148): two
`scheduler.add_job(..., id=..., replace_existing=True)` calls against the
Redis-backed job store.  The store is modelled as an association list keyed
by job id; `replace_existing=True` updates the entry in place when the id is
already present and appends otherwise. -/

structure JobSpec where
  funcName : String
  trigger : String
deriving DecidableEq, Repr

abbrev JobStore := List (String × JobSpec)

def add_job (store : JobStore) (id : String) (spec : JobSpec) : JobStore :=
  if store.any (fun e => e.1 == id) then
    store.map (fun e => if e.1 == id then (id, spec) else e)
  else store ++ [(id, spec)]

def uploadJobSpec : JobSpec :=
  ⟨"run_upload_bills_job", "cron hour */2 minute 0 tz utc"⟩

def reportJobSpec : JobSpec :=
  ⟨"run_weekly_report_job", "cron day_of_week sun hour 13 minute 0 tz utc"⟩

def schedule_jobs (store : JobStore) : JobStore :=
  add_job (add_job store "upload_bills_job" uploadJobSpec)
    "send_weekly_report_job" reportJobSpec

/-- Number of store entries carrying a given job identifier. -/
def countId (store : JobStore) (id : String) : Nat :=
  (store.filter (fun e => e.1 == id)).length

def storeKeys (store : JobStore) : List String := store.map Prod.fst

/-! ### The API client

`services/ReceiptApiClient.py`.  `__init__` (lines 10-30):
`self.base_url = base_url or os.environ.get("RECEIPT_API_URL", "http://localhost:5000")`
(Python `or`: an empty-string or `None` `base_url` falls through to the
environment).  Both jobs construct the client with the literal argument
`base_url="https://receipt-analyser-api:8082"`. -/

def clientBaseUrl (base_url : Option String) (envUrl : Option String) : String :=
  let envValue := envUrl.getD "http://localhost:5000"
  match base_url with
  | none => envValue
  | some s => if s == "" then envValue else s

/-- The base URL of the client session each job opens
(`Schedulers.py` lines 53-55 and 87-89). -/
def jobClientBaseUrl (envUrl : Option String) : String :=
  clientBaseUrl (some "https://receipt-analyser-api:8082") envUrl

/-! ### `send_report_by_email` payload

`services/ReceiptApiClient.py` (lines 105-138): the JSON payload holds
`startDate` and `endDate` as `datetime.isoformat()` strings, plus `email`
only when `if email:` holds (truthy, so `None` and `""` are both omitted).

`isoformat` is reconstructed for the model: the ordinal is converted to a
civil date (standard Gregorian algorithm; Python's day 1 is 0001-01-01, and
`0001-03-01` is day 60, i.e. ordinal + 305 days counted from 0000-03-01),
and the fractional part `.ffffff` is appended only when the microsecond
component is non-zero, as Python does. -/

def civilFromOrdinal (ordinal : Int) : Nat × Nat × Nat :=
  let z := (ordinal + 305).toNat
  let era := z / 146097
  let doe := z % 146097
  let yoe := (doe - doe / 1460 + doe / 36524 - doe / 146096) / 365
  let doy := doe - (365 * yoe + yoe / 4 - yoe / 100)
  let mp := (5 * doy + 2) / 153
  let d := doy - (153 * mp + 2) / 5 + 1
  let m := if mp < 10 then mp + 3 else mp - 9
  let y := yoe + era * 400
  (if m ≤ 2 then y + 1 else y, m, d)

def padNum (width n : Nat) : String :=
  let s := toString n
  if s.length < width then String.mk (List.replicate (width - s.length) '0') ++ s
  else s

def isoformat (t : PyDateTime) : String :=
  let c := civilFromOrdinal t.ordinal
  let hh := t.usec / 3600000000
  let mm := t.usec / 60000000 % 60
  let ss := t.usec / 1000000 % 60
  let us := t.usec % 1000000
  let base := padNum 4 c.1 ++ "-" ++ padNum 2 c.2.1 ++ "-" ++ padNum 2 c.2.2 ++
    "T" ++ padNum 2 hh ++ ":" ++ padNum 2 mm ++ ":" ++ padNum 2 ss
  if us == 0 then base else base ++ "." ++ padNum 6 us

/-- Python truthiness of the optional `email: str = None` argument. -/
def truthy : Option String → Bool
  | none => false
  | some s => !(s == "")

def send_report_by_email_payload (start_date end_date : PyDateTime)
    (email : Option String) : List (String × String) :=
  let payload := [("startDate", isoformat start_date), ("endDate", isoformat end_date)]
  if truthy email then payload ++ [("email", email.getD "")] else payload

/-! ### Helper lemmas about the upload job -/

/-- When no `open` call fails on a matching file, the scan returns the
matching paths twice (as `file_paths` and as the opened handles) and does not
abort. -/
lemma scanBills_no_openFail (dir : String) (o : String → Bool) (l : List String)
    (h : ∀ f ∈ l, matchesExt f = true → o (joinPath dir f) = false) :
    scanBills dir o l =
      ((l.filter matchesExt).map (joinPath dir),
       (l.filter matchesExt).map (joinPath dir), false) := by
  induction l with
  | nil => rfl
  | cons f rest ih =>
    have hrest : ∀ g ∈ rest, matchesExt g = true → o (joinPath dir g) = false :=
      fun g hg => h g (List.mem_cons_of_mem f hg)
    by_cases hm : matchesExt f = true
    · have ho : o (joinPath dir f) = false := h f (List.mem_cons_self f rest) hm
      simp [scanBills, hm, ho, ih hrest, List.filter_cons]
    · simp [scanBills, hm, ih hrest, List.filter_cons, Bool.of_not_eq_true hm]

/-- Branch: no matching file. -/
lemma upload_job_noFiles (env : UploadEnv)
    (h : ∀ f ∈ env.listing, matchesExt f = true → env.openFails (joinPath env.dir f) = false)
    (he : matchedPaths env = []) :
    upload_bills_job env =
      { opened := [], closed := [], removeAttempts := [], removed := [],
        remoteCalls := 0, raised := false, log := [.infoNoFiles] } := by
  have he2 : env.listing.filter matchesExt = [] := by
    simpa [matchedPaths] using he
  unfold upload_bills_job
  rw [scanBills_no_openFail env.dir env.openFails env.listing h]
  simp [he2]

/-- Branch: matching files exist, every `open` succeeds and the upload call
succeeds. -/
lemma upload_job_success (env : UploadEnv)
    (h : ∀ f ∈ env.listing, matchesExt f = true → env.openFails (joinPath env.dir f) = false)
    (hne : matchedPaths env ≠ []) (hu : env.uploadOk = true) :
    upload_bills_job env =
      { opened := matchedPaths env, closed := matchedPaths env,
        removeAttempts := matchedPaths env,
        removed := (matchedPaths env).filter (fun p => !env.removeFails p),
        remoteCalls := 1, raised := false,
        log := [.infoAttempt (matchedPaths env).length,
                .infoUploaded (matchedPaths env).length] ++
          (matchedPaths env).map (fun p =>
            if env.removeFails p then LogEntry.errorRemove p else .infoRemoved p) } := by
  have hne2 : (env.listing.filter matchesExt).map (joinPath env.dir) ≠ [] := by
    simpa [matchedPaths] using hne
  unfold upload_bills_job
  rw [scanBills_no_openFail env.dir env.openFails env.listing h]
  simp [matchedPaths, hu, List.isEmpty_iff, hne2]

/-- Branch: matching files exist, every `open` succeeds and the upload call
fails; the outer handler swallows the exception and the `finally` block
closes each handle. -/
lemma upload_job_uploadFail (env : UploadEnv)
    (h : ∀ f ∈ env.listing, matchesExt f = true → env.openFails (joinPath env.dir f) = false)
    (hne : matchedPaths env ≠ []) (hu : env.uploadOk = false) :
    upload_bills_job env =
      { opened := matchedPaths env, closed := matchedPaths env,
        removeAttempts := [], removed := [],
        remoteCalls := 1, raised := false,
        log := [.infoAttempt (matchedPaths env).length,
                .errorUploadInner, .errorUploadOuter] } := by
  have hne2 : (env.listing.filter matchesExt).map (joinPath env.dir) ≠ [] := by
    simpa [matchedPaths] using hne
  unfold upload_bills_job
  rw [scanBills_no_openFail env.dir env.openFails env.listing h]
  simp [matchedPaths, hu, List.isEmpty_iff, hne2]

/-- On every path where the job function returns (does not raise), the
`finally` block has closed every opened handle; on the path where it raises
out of the scan, nothing is closed. -/
lemma upload_closed_of_exit (env : UploadEnv) :
    ((upload_bills_job env).raised = false →
      (upload_bills_job env).closed = (upload_bills_job env).opened) ∧
    ((upload_bills_job env).raised = true → (upload_bills_job env).closed = []) := by
  unfold upload_bills_job
  rcases hsc : scanBills env.dir env.openFails env.listing with ⟨fp, bf, ab⟩
  cases ab <;> by_cases hbf : bf.isEmpty = true <;> by_cases hu : env.uploadOk = true <;>
    simp_all

/-- Files are only ever removed in the branch guarded by a successful
`upload_receipts` call. -/
lemma upload_removed_sub_success (env : UploadEnv)
    (h : (upload_bills_job env).removed ≠ []) : env.uploadOk = true := by
  revert h
  unfold upload_bills_job
  rcases hsc : scanBills env.dir env.openFails env.listing with ⟨fp, bf, ab⟩
  cases ab <;> by_cases hbf : bf.isEmpty = true <;> cases hu : env.uploadOk <;>
    simp_all

/-! ### Concrete environments used for witnesses and counterexamples -/

def envBills : UploadEnv :=
  { dir := "bills", listing := ["a.jpg", "b.PNG", "c.txt"],
    openFails := fun _ => false, uploadOk := true,
    removeFails := fun p => p == "bills/a.jpg" }

def envUploadFail : UploadEnv :=
  { dir := "bills", listing := ["a.jpg"], openFails := fun _ => false,
    uploadOk := false, removeFails := fun _ => false }

def envOpenFail : UploadEnv :=
  { dir := "bills", listing := ["a.jpg", "b.jpg"],
    openFails := fun p => p == "bills/b.jpg", uploadOk := true,
    removeFails := fun _ => false }

def envNoMatch : UploadEnv :=
  { dir := "bills", listing := ["a.gif", "b.txt"], openFails := fun _ => false,
    uploadOk := true, removeFails := fun _ => false }

/-! ### Claim theorems -/

/-- C1: files are deleted only if the remote upload call reports success — on
a failed upload nothing is removed; on a successful upload removal of each
selected file is attempted, an individual removal error is logged without
aborting the remaining removals, and the job does not fail. -/
theorem upload_removes_only_after_success (env : UploadEnv) :
    ((upload_bills_job env).removed ≠ [] → env.uploadOk = true) ∧
    ((∀ f ∈ env.listing, matchesExt f = true → env.openFails (joinPath env.dir f) = false) →
      env.uploadOk = true →
      (upload_bills_job env).removeAttempts = matchedPaths env ∧
      (upload_bills_job env).removed =
        (matchedPaths env).filter (fun p => !env.removeFails p) ∧
      (upload_bills_job env).raised = false ∧
      ∀ p ∈ matchedPaths env, env.removeFails p = true →
        LogEntry.errorRemove p ∈ (upload_bills_job env).log) := by
  refine ⟨upload_removed_sub_success env, fun h hu => ?_⟩
  by_cases he : matchedPaths env = []
  · rw [upload_job_noFiles env h he]
    simp [he]
  · rw [upload_job_success env h he hu]
    refine ⟨rfl, rfl, rfl, fun p hp hr => ?_⟩
    have hm : LogEntry.errorRemove p ∈ (matchedPaths env).map (fun q =>
        if env.removeFails q then LogEntry.errorRemove q else .infoRemoved q) :=
      List.mem_map.mpr ⟨p, hp, by simp [hr]⟩
    simp [hm]

/-- Witness for C1 at a concrete environment: two image files, upload
succeeds, removing `bills/a.jpg` fails. -/
theorem upload_removes_only_after_success_witness :
    (upload_bills_job envBills).removeAttempts = matchedPaths envBills ∧
    (upload_bills_job envBills).removed =
      (matchedPaths envBills).filter (fun p => !envBills.removeFails p) ∧
    (upload_bills_job envBills).raised = false ∧
    ∀ p ∈ matchedPaths envBills, envBills.removeFails p = true →
      LogEntry.errorRemove p ∈ (upload_bills_job envBills).log :=
  (upload_removes_only_after_success envBills).2 (by decide) rfl

/-- C2 (amended): when the remote upload call fails, the error is logged by
both handlers, but the outer handler swallows the exception — the job returns
normally and nothing propagates to its caller. -/
theorem upload_failure_logged_and_swallowed (env : UploadEnv)
    (hcall : (upload_bills_job env).remoteCalls = 1) (hu : env.uploadOk = false) :
    (upload_bills_job env).raised = false ∧
    LogEntry.errorUploadInner ∈ (upload_bills_job env).log ∧
    LogEntry.errorUploadOuter ∈ (upload_bills_job env).log := by
  revert hcall
  unfold upload_bills_job
  rcases hsc : scanBills env.dir env.openFails env.listing with ⟨fp, bf, ab⟩
  cases ab <;> by_cases hbf : bf.isEmpty = true <;> simp_all

/-- Witness for C2's amended theorem. -/
theorem upload_failure_logged_and_swallowed_witness :
    (upload_bills_job envUploadFail).raised = false ∧
    LogEntry.errorUploadInner ∈ (upload_bills_job envUploadFail).log ∧
    LogEntry.errorUploadOuter ∈ (upload_bills_job envUploadFail).log :=
  upload_failure_logged_and_swallowed envUploadFail (by decide) rfl

/-- Counterexample to C2 as stated: with one matching file and a failing
upload call, the job performs the remote call, logs the error, and returns
without raising — the exception does not propagate to the caller. -/
theorem upload_failure_not_propagated_cex :
    envUploadFail.uploadOk = false ∧
    (upload_bills_job envUploadFail).remoteCalls = 1 ∧
    (upload_bills_job envUploadFail).raised = false ∧
    LogEntry.errorUploadOuter ∈ (upload_bills_job envUploadFail).log := by
  decide

/-- C3 (amended): on success the manual-trigger endpoints return the
200 messages `"Bill upload job completed"` / `"Weekly report job completed"`;
but the endpoint functions contain no error handling, so when the underlying
job raises, the exception propagates out of the endpoint uncaught instead of
being converted to a 500-class response with a logged cause. -/
theorem trigger_endpoints_behavior (env : UploadEnv) (today : PyDateTime) (sendOk : Bool) :
    ((upload_bills_job env).raised = false →
      trigger_upload_bills env = .success "Bill upload job completed") ∧
    ((upload_bills_job env).raised = true →
      trigger_upload_bills env = .propagated) ∧
    trigger_weekly_report today sendOk = .success "Weekly report job completed" := by
  refine ⟨fun h => ?_, fun h => ?_, rfl⟩ <;> simp [trigger_upload_bills, h]

/-- Witness for C3's amended theorem. -/
theorem trigger_endpoints_behavior_witness :
    trigger_upload_bills envBills = .success "Bill upload job completed" ∧
    trigger_weekly_report ⟨739536, 0⟩ true = .success "Weekly report job completed" :=
  ⟨(trigger_endpoints_behavior envBills ⟨739536, 0⟩ true).1 (by decide),
   (trigger_endpoints_behavior envBills ⟨739536, 0⟩ true).2.2⟩

/-- Counterexample to C3 as stated: when the job raises (here: an `open`
failure during the scan), the endpoint does not produce a server-error
response — the exception escapes the endpoint function. -/
theorem trigger_upload_no_error_conversion_cex :
    trigger_upload_bills envOpenFail = EndpointOutcome.propagated ∧
    isServerError (trigger_upload_bills envOpenFail) = false := by
  decide

/-- C4 (amended): on every exit path taken after the scan loop finishes
(success, upload failure, empty selection), every opened handle is closed;
but on the exit path where `open` itself raises part-way through the scan,
no handle is closed at all. -/
theorem upload_handles_closed_unless_scan_aborts (env : UploadEnv) :
    ((upload_bills_job env).raised = false →
      (upload_bills_job env).closed = (upload_bills_job env).opened) ∧
    ((upload_bills_job env).raised = true → (upload_bills_job env).closed = []) :=
  upload_closed_of_exit env

/-- Witness for C4's amended theorem. -/
theorem upload_handles_closed_unless_scan_aborts_witness :
    (upload_bills_job envBills).closed = (upload_bills_job envBills).opened ∧
    (upload_bills_job envOpenFail).closed = [] :=
  ⟨(upload_handles_closed_unless_scan_aborts envBills).1 (by decide),
   (upload_handles_closed_unless_scan_aborts envOpenFail).2 (by decide)⟩

/-- Counterexample to C4 as stated: `a.jpg` opens, then `open` on `b.jpg`
raises part-way through the scan; the job exits with the `a.jpg` handle
opened but never closed. -/
theorem upload_handle_leak_cex :
    (upload_bills_job envOpenFail).opened = ["bills/a.jpg"] ∧
    (upload_bills_job envOpenFail).closed = [] ∧
    (upload_bills_job envOpenFail).raised = true := by
  decide

/-- C6: the scan selects exactly the filenames whose lowercased form ends in
`.jpg`, `.jpeg` or `.png` (so `.JPG` is selected and `.gif`, `.txt` are not),
and an empty selection means zero remote calls and a normal return. -/
theorem upload_filter_selects_images :
    (∀ f : String, matchesExt f = true ↔
      (strEndsWith (strLower f) ".jpg" = true ∨ strEndsWith (strLower f) ".jpeg" = true ∨
       strEndsWith (strLower f) ".png" = true)) ∧
    (matchesExt "a.jpg" = true ∧ matchesExt "a.JPG" = true ∧ matchesExt "b.jpeg" = true ∧
     matchesExt "b.JpEg" = true ∧ matchesExt "c.png" = true ∧ matchesExt "c.PNG" = true ∧
     matchesExt "d.gif" = false ∧ matchesExt "d.txt" = false) ∧
    (∀ env : UploadEnv, env.listing.filter matchesExt = [] →
      (upload_bills_job env).remoteCalls = 0 ∧ (upload_bills_job env).raised = false ∧
      (upload_bills_job env).opened = []) ∧
    (∀ env : UploadEnv,
      (∀ f ∈ env.listing, matchesExt f = true → env.openFails (joinPath env.dir f) = false) →
      (upload_bills_job env).opened = matchedPaths env) := by
  refine ⟨fun f => by simp [matchesExt, Bool.or_eq_true, or_assoc], by decide, ?_, ?_⟩
  · intro env hsel
    have hvac : ∀ f ∈ env.listing, matchesExt f = true →
        env.openFails (joinPath env.dir f) = false := by
      intro f hf hm
      have := List.filter_eq_nil_iff.mp hsel f hf
      simp [hm] at this
    have he : matchedPaths env = [] := by simp [matchedPaths, hsel]
    rw [upload_job_noFiles env hvac he]
    exact ⟨rfl, rfl, rfl⟩
  · intro env h
    by_cases he : matchedPaths env = []
    · rw [upload_job_noFiles env h he, he]
    · by_cases hu : env.uploadOk = true
      · rw [upload_job_success env h he hu]
      · rw [upload_job_uploadFail env h he (by simpa using hu)]

/-- Witness for C6 at a directory listing with no matching file. -/
theorem upload_filter_selects_images_witness :
    (upload_bills_job envNoMatch).remoteCalls = 0 ∧
    (upload_bills_job envNoMatch).raised = false ∧
    (upload_bills_job envNoMatch).opened = [] :=
  upload_filter_selects_images.2.2.1 envNoMatch (by decide)

/-! ### Helper lemmas about the job store -/

lemma countId_cons (e : String × JobSpec) (t : JobStore) (id : String) :
    countId (e :: t) id = countId t id + if e.1 == id then 1 else 0 := by
  by_cases h : (e.1 == id) = true <;> simp [countId, List.filter_cons, h]

lemma storeKeys_cons (e : String × JobSpec) (t : JobStore) :
    storeKeys (e :: t) = e.1 :: storeKeys t := rfl

lemma countId_eq_count (s : JobStore) (id : String) :
    countId s id = (storeKeys s).count id := by
  induction s with
  | nil => rfl
  | cons e t ih => simp [countId_cons, storeKeys_cons, List.count_cons, ih]

lemma any_key_iff (s : JobStore) (id : String) :
    s.any (fun e => e.1 == id) = true ↔ id ∈ storeKeys s := by
  simp [List.any_eq_true, storeKeys, List.mem_map, beq_iff_eq]

lemma storeKeys_add_job_present (s : JobStore) (id : String) (spec : JobSpec)
    (h : s.any (fun e => e.1 == id) = true) :
    storeKeys (add_job s id spec) = storeKeys s := by
  unfold add_job
  rw [if_pos h]
  unfold storeKeys
  rw [List.map_map]
  apply List.map_congr_left
  intro e _
  by_cases hc : (e.1 == id) = true
  · simp [Function.comp, hc, eq_of_beq hc]
  · simp [Function.comp, hc]

lemma add_job_absent (s : JobStore) (id : String) (spec : JobSpec)
    (h : s.any (fun e => e.1 == id) = false) :
    add_job s id spec = s ++ [(id, spec)] := by
  unfold add_job
  rw [if_neg (by simp [h])]

lemma countId_map_replace (s : JobStore) (id : String) (spec : JobSpec) :
    countId (s.map (fun e => if e.1 == id then (id, spec) else e)) id = countId s id := by
  induction s with
  | nil => rfl
  | cons e t ih =>
    simp only [List.map_cons]
    rw [countId_cons, countId_cons, ih]
    by_cases hc : (e.1 == id) = true
    · simp [hc, eq_of_beq hc]
    · simp [hc]

lemma countId_map_replace_other (s : JobStore) (id : String) (spec : JobSpec)
    (idb : String) (h : idb ≠ id) :
    countId (s.map (fun e => if e.1 == id then (id, spec) else e)) idb = countId s idb := by
  induction s with
  | nil => rfl
  | cons e t ih =>
    simp only [List.map_cons]
    rw [countId_cons, countId_cons, ih]
    by_cases hc : (e.1 == id) = true
    · have he : e.1 = id := eq_of_beq hc
      simp [hc, he, Ne.symm h]
    · simp [hc]

lemma countId_append (s t : JobStore) (id : String) :
    countId (s ++ t) id = countId s id + countId t id := by
  simp [countId, List.filter_append]

lemma countId_eq_zero_of_not_mem (s : JobStore) (id : String)
    (h : id ∉ storeKeys s) : countId s id = 0 := by
  rw [countId_eq_count]
  exact List.count_eq_zero.mpr h

lemma nodup_countId_le_one (s : JobStore) (id : String)
    (h : (storeKeys s).Nodup) : countId s id ≤ 1 := by
  rw [countId_eq_count]
  exact List.nodup_iff_count_le_one.mp h id

lemma countId_add_job_self (s : JobStore) (id : String) (spec : JobSpec)
    (h1 : countId s id ≤ 1) : countId (add_job s id spec) id = 1 := by
  cases hany : s.any (fun e => e.1 == id) with
  | true =>
    unfold add_job
    rw [if_pos hany, countId_map_replace]
    have hmem : id ∈ storeKeys s := (any_key_iff s id).mp hany
    have hge : 1 ≤ countId s id := by
      rw [countId_eq_count]
      exact List.one_le_count_iff.mpr hmem
    omega
  | false =>
    rw [add_job_absent s id spec hany, countId_append]
    have hid : id ∉ storeKeys s := by
      rw [← any_key_iff]
      simp [hany]
    have hz : countId s id = 0 := countId_eq_zero_of_not_mem s id hid
    rw [hz]
    simp [countId, List.filter_cons]

lemma countId_add_job_other (s : JobStore) (id : String) (spec : JobSpec)
    (idb : String) (h : idb ≠ id) :
    countId (add_job s id spec) idb = countId s idb := by
  cases hany : s.any (fun e => e.1 == id) with
  | true =>
    unfold add_job
    rw [if_pos hany, countId_map_replace_other s id spec idb h]
  | false =>
    rw [add_job_absent s id spec hany, countId_append]
    simp [countId, List.filter_cons, Ne.symm h]

lemma storeKeys_append (s t : JobStore) :
    storeKeys (s ++ t) = storeKeys s ++ storeKeys t := by
  simp [storeKeys]

lemma nodup_add_job (s : JobStore) (id : String) (spec : JobSpec)
    (h : (storeKeys s).Nodup) : (storeKeys (add_job s id spec)).Nodup := by
  cases hany : s.any (fun e => e.1 == id) with
  | true =>
    rw [storeKeys_add_job_present s id spec hany]
    exact h
  | false =>
    rw [add_job_absent s id spec hany, storeKeys_append]
    have hid : id ∉ storeKeys s := by
      rw [← any_key_iff]
      simp [hany]
    refine List.Nodup.append h (List.nodup_singleton id) ?_
    intro a ha hb
    simp only [storeKeys, List.map_cons, List.map_nil, List.mem_singleton] at hb
    subst hb
    exact hid ha

lemma schedule_jobs_nodup (s : JobStore) (h : (storeKeys s).Nodup) :
    (storeKeys (schedule_jobs s)).Nodup :=
  nodup_add_job _ _ _ (nodup_add_job _ _ _ h)

lemma schedule_jobs_counts (s : JobStore) (h : (storeKeys s).Nodup) :
    countId (schedule_jobs s) "upload_bills_job" = 1 ∧
    countId (schedule_jobs s) "send_weekly_report_job" = 1 ∧
    ∀ id, id ≠ "upload_bills_job" → id ≠ "send_weekly_report_job" →
      countId (schedule_jobs s) id = countId s id := by
  unfold schedule_jobs
  refine ⟨?_, ?_, ?_⟩
  · rw [countId_add_job_other _ _ _ _ (by decide)]
    exact countId_add_job_self _ _ _ (nodup_countId_le_one s _ h)
  · exact countId_add_job_self _ _ _
      (nodup_countId_le_one _ _ (nodup_add_job _ _ _ h))
  · intro id h1 h2
    rw [countId_add_job_other _ _ _ _ h2, countId_add_job_other _ _ _ _ h1]

/-- C5: `schedule_jobs` registers the two jobs under the fixed identifiers
with replace-on-reregister semantics; after any positive number of
invocations the store holds exactly one entry per identifier, no duplicate
ever appears (keys stay pairwise distinct), and entries under other
identifiers are untouched. -/
theorem schedule_jobs_idempotent (store : JobStore) (n : Nat)
    (h : (storeKeys store).Nodup) (hn : 1 ≤ n) :
    (storeKeys (schedule_jobs^[n] store)).Nodup ∧
    countId (schedule_jobs^[n] store) "upload_bills_job" = 1 ∧
    countId (schedule_jobs^[n] store) "send_weekly_report_job" = 1 ∧
    ∀ id, id ≠ "upload_bills_job" → id ≠ "send_weekly_report_job" →
      countId (schedule_jobs^[n] store) id = countId store id := by
  induction n with
  | zero => exact absurd hn (by decide)
  | succ m ih =>
    rw [Function.iterate_succ_apply']
    rcases Nat.eq_zero_or_pos m with hm | hm
    · subst hm
      simp only [Function.iterate_zero_apply]
      obtain ⟨c1, c2, c3⟩ := schedule_jobs_counts store h
      exact ⟨schedule_jobs_nodup _ h, c1, c2, c3⟩
    · obtain ⟨hnd, _, _, hother⟩ := ih hm
      obtain ⟨c1, c2, c3⟩ := schedule_jobs_counts _ hnd
      refine ⟨schedule_jobs_nodup _ hnd, c1, c2, fun id h1 h2 => ?_⟩
      rw [c3 id h1 h2, hother id h1 h2]

def storeW : JobStore := [("existing_job", ⟨"existing_func", "existing_trigger"⟩)]

/-- Witness for C5: two consecutive `schedule_jobs` runs over a store already
holding an unrelated entry. -/
theorem schedule_jobs_idempotent_witness :
    (storeKeys (schedule_jobs^[2] storeW)).Nodup ∧
    countId (schedule_jobs^[2] storeW) "upload_bills_job" = 1 ∧
    countId (schedule_jobs^[2] storeW) "send_weekly_report_job" = 1 ∧
    ∀ id, id ≠ "upload_bills_job" → id ≠ "send_weekly_report_job" →
      countId (schedule_jobs^[2] storeW) id = countId storeW id :=
  schedule_jobs_idempotent storeW 2 (by decide) (by decide)

/-! ### Weekly-report window claims -/

/-- C7 (amended): both window computations span the previous week's Monday
through the previous Sunday with start ≤ end (end = start + 6 days and end
strictly before the invocation day); the `ReceiptService.py` revision pins
the times of day to Monday 00:01:00 and Sunday 23:59:59, while the active
`Schedulers.py` job keeps the invocation's own time of day on both bounds. -/
theorem report_window_bounds (today : PyDateTime) :
    (report_window_sched today).1.ordinal + 6 = (report_window_sched today).2.ordinal ∧
    (report_window_sched today).1.usec = today.usec ∧
    (report_window_sched today).2.usec = today.usec ∧
    weekday (report_window_sched today).1 = 0 ∧
    weekday (report_window_sched today).2 = 6 ∧
    (report_window_sched today).2.ordinal < today.ordinal ∧
    today.ordinal ≤ (report_window_sched today).2.ordinal + 7 ∧
    dtLE (report_window_sched today).1 (report_window_sched today).2 ∧
    (report_window_svc today).1.ordinal = (report_window_sched today).1.ordinal ∧
    (report_window_svc today).2.ordinal = (report_window_sched today).2.ordinal ∧
    (report_window_svc today).1.usec = 60000000 ∧
    (report_window_svc today).2.usec = 86399000000 ∧
    dtLE (report_window_svc today).1 (report_window_svc today).2 := by
  simp only [report_window_svc, report_window_sched, subDays, replaceTime, weekday, dtLE]
  refine ⟨by omega, by trivial, by trivial, by omega, by omega, by omega, by omega,
    Or.inl (by omega), by trivial, by trivial, by trivial, by trivial, Or.inl (by omega)⟩

/-- Counterexample to C7 as stated: invoking the active `Schedulers.py`
window computation at noon leaves both bounds at noon — the start is not a
day's start time (00:00 or 00:01) and the end is not a day's end time
(23:59:00 or 23:59:59).  Ordinal 739536 is a Sunday at 12:00:00. -/
theorem report_window_sched_midday_cex :
    (report_window_sched ⟨739536, 43200000000⟩).1.usec = 43200000000 ∧
    ¬((report_window_sched ⟨739536, 43200000000⟩).1.usec = 0 ∨
      (report_window_sched ⟨739536, 43200000000⟩).1.usec = 60000000) ∧
    ¬((report_window_sched ⟨739536, 43200000000⟩).2.usec = 86340000000 ∨
      (report_window_sched ⟨739536, 43200000000⟩).2.usec = 86399000000) := by
  decide

/-- C8 (amended): two invocations within the same second produce identical
windows under the `ReceiptService.py` revision (which zeroes the sub-second
fields), and windows agreeing on their day ordinals under the active
`Schedulers.py` computation — but the latter copies the invocation's own
sub-second part into both bounds. -/
theorem report_window_second_determinism (t1 t2 : PyDateTime)
    (h : sameSecond t1 t2) :
    report_window_svc t1 = report_window_svc t2 ∧
    (report_window_sched t1).1.ordinal = (report_window_sched t2).1.ordinal ∧
    (report_window_sched t1).2.ordinal = (report_window_sched t2).2.ordinal ∧
    (report_window_sched t1).1.usec = t1.usec ∧
    (report_window_sched t2).1.usec = t2.usec := by
  obtain ⟨ho, _⟩ := h
  simp [report_window_svc, report_window_sched, subDays, replaceTime, weekday, ho]

/-- Witness for C8's amended theorem: two timestamps in the same second of
the same day, 999899 microseconds apart. -/
theorem report_window_second_determinism_witness :
    sameSecond ⟨739536, 100⟩ ⟨739536, 999999⟩ ∧
    report_window_svc ⟨739536, 100⟩ = report_window_svc ⟨739536, 999999⟩ :=
  ⟨by decide,
   (report_window_second_determinism ⟨739536, 100⟩ ⟨739536, 999999⟩ (by decide)).1⟩

/-- Counterexample to C8 as stated: one microsecond apart within the same
second, the active `Schedulers.py` computation yields two different
windows (the sub-second part of "now" leaks into the bounds). -/
theorem report_window_sched_subsecond_cex :
    sameSecond ⟨739536, 43200000000⟩ ⟨739536, 43200000001⟩ ∧
    report_window_sched ⟨739536, 43200000000⟩ ≠
      report_window_sched ⟨739536, 43200000001⟩ := by
  decide

/-! ### API-client claims -/

/-- C9 (amended): both jobs construct the client with the hardcoded literal
`base_url="https://receipt-analyser-api:8082"`, so the session's base URL is
the same whatever `RECEIPT_API_URL` holds; the environment value (with its
`http://localhost:5000` default) is used only when the constructor receives
no base URL, which the jobs never do. -/
theorem job_client_base_url_hardcoded (envUrl : Option String) (u : String) :
    jobClientBaseUrl envUrl = "https://receipt-analyser-api:8082" ∧
    clientBaseUrl none (some u) = u ∧
    clientBaseUrl none none = "http://localhost:5000" :=
  ⟨rfl, rfl, rfl⟩

/-- Counterexample to C9 as stated: with the environment configured to a
different URL, the job's client session still uses the hardcoded one. -/
theorem job_client_base_url_ignores_env_cex :
    jobClientBaseUrl (some "http://env-configured:9999") =
      "https://receipt-analyser-api:8082" ∧
    jobClientBaseUrl (some "http://env-configured:9999") ≠
      "http://env-configured:9999" := by
  decide

/-- Helper: a truthy `email` argument lands in the payload under the
`email` key. -/
lemma lookup_email_of_truthy (s e : PyDateTime) (v : String)
    (hv : truthy (some v) = true) :
    (send_report_by_email_payload s e (some v)).lookup "email" = some v := by
  simp only [send_report_by_email_payload, hv, if_true]
  rfl

/-- C10: the report payload always carries `startDate` and `endDate` as the
ISO-8601 strings of the two datetimes, and carries `email` exactly when the
argument is truthy — in particular `None` and the empty string are omitted. -/
theorem send_report_payload_shape (s e : PyDateTime) (em : Option String) :
    (send_report_by_email_payload s e em).lookup "startDate" = some (isoformat s) ∧
    (send_report_by_email_payload s e em).lookup "endDate" = some (isoformat e) ∧
    ((send_report_by_email_payload s e em).lookup "email" = none ↔ truthy em = false) ∧
    (send_report_by_email_payload s e (some "")).lookup "email" = none ∧
    (send_report_by_email_payload s e none).lookup "email" = none ∧
    ∀ v : String, truthy (some v) = true →
      (send_report_by_email_payload s e (some v)).lookup "email" = some v := by
  refine ⟨?_, ?_, ?_, rfl, rfl, lookup_email_of_truthy s e⟩
  · cases hem : truthy em <;>
      simp only [send_report_by_email_payload, hem, if_true, if_false] <;> rfl
  · cases hem : truthy em <;>
      simp only [send_report_by_email_payload, hem, if_true, if_false] <;> rfl
  · constructor
    · intro hk
      cases hem : truthy em with
      | false => rfl
      | true =>
        exfalso
        have hsome : (send_report_by_email_payload s e em).lookup "email" =
            some (em.getD "") := by
          simp only [send_report_by_email_payload, hem, if_true]
          rfl
        rw [hsome] at hk
        exact Option.noConfusion hk
    · intro hf
      simp only [send_report_by_email_payload, hf, Bool.false_eq_true, if_false]
      rfl

/-- Witness for C10 at a concrete window and recipient. -/
theorem send_report_payload_shape_witness :
    (send_report_by_email_payload ⟨739529, 60000000⟩ ⟨739535, 86399000000⟩
      (some "ops@example.com")).lookup "email" = some "ops@example.com" :=
  (send_report_payload_shape ⟨739529, 60000000⟩ ⟨739535, 86399000000⟩
    (some "ops@example.com")).2.2.2.2.2 "ops@example.com" (by decide)

end BillUploader
